import Mathlib

/-! # The `example/basic` program of opentelemetry-go

A shallow embedding of `example/basic/main.go` and of the batching span
processor that the program's `sdktrace.NewBatchSpanProcessor` call relies on.

* Part I embeds `main` itself.  The SDK functions that `main` calls are not
  part of the embedded file; every call `main` makes on them is recorded, with
  its arguments, in a call trace.  Go's `defer`, function literals, the early
  exit of `log.Fatalf` and `panic` are modelled by a small monad `Go`.
* Part II models the span buffer, batch formation, export worker and lifecycle
  controller of the batching span processor as the specification describes
  them.
-/

namespace Basic

/-! ## Part I: values handed to the SDK -/

/-- A `label.Value`: the program only builds string and integer values. -/
inductive Value where
  | str (s : String)
  | int (i : Int)
  deriving DecidableEq, Repr

/-- A `label.KeyValue`. -/
structure KeyValue where
  key : String
  value : Value
  deriving DecidableEq, Repr

/-- The method `label.Key.String`. -/
def keyString (k : String) (v : String) : KeyValue := ⟨k, Value.str v⟩

/-- The method `label.Key.Int`. -/
def keyInt (k : String) (v : Int) : KeyValue := ⟨k, Value.int v⟩

/-- The function `label.String`. -/
def labelString (k : String) (v : String) : KeyValue := ⟨k, Value.str v⟩

/-- The function `label.Int`. -/
def labelInt (k : String) (v : Int) : KeyValue := ⟨k, Value.int v⟩

/-- A `float64` literal of the program, kept as the decimal that is written in
the source: `digits * 10 ^ (-scale)`.  The program never computes with these
numbers, it only passes them on. -/
structure Decimal where
  digits : Int
  scale : Nat
  deriving DecidableEq, Repr

/-- The package variable `fooKey`. -/
def fooKey : String := "ex.com/foo"

/-- The package variable `barKey`. -/
def barKey : String := "ex.com/bar"

/-- The package variable `lemonsKey`. -/
def lemonsKey : String := "ex.com/lemons"

/-- The package variable `anotherKey`. -/
def anotherKey : String := "ex.com/another"

/-- A `context.Context` as the program builds it: from `context.Background()`,
by `otel.ContextWithBaggageValues`, and as the context returned by
`tracer.Start`. -/
inductive Ctx where
  | background
  | withBaggageValues (parent : Ctx) (kvs : List KeyValue)
  | withSpan (parent : Ctx) (spanName : String)
  deriving DecidableEq, Repr

/-- An `otel.Span` handle: the span that `tracer.Start(parent, name)` returned. -/
structure Span where
  parent : Ctx
  name : String
  deriving DecidableEq, Repr

/-- The context that `tracer.Start` returns together with the span. -/
def Span.ctx (s : Span) : Ctx := Ctx.withSpan s.parent s.name

/-- An `otel.Measurement`, built by `Float64ValueRecorder.Measurement`. -/
structure Measurement where
  instrument : String
  value : Decimal
  deriving DecidableEq, Repr

/-- A bound instrument, built by `Float64ValueRecorder.Bind`. -/
structure BoundInstrument where
  instrument : String
  labels : List KeyValue
  deriving DecidableEq, Repr

/-- The options given to `stdout.NewExporter`. -/
inductive ExporterOption where
  | withQuantiles (qs : List Decimal)
  | withPrettyPrint
  deriving DecidableEq, Repr

/-- An observer callback as `main` writes it: a function literal that observes
one value.  The labels of the observation are not part of the literal: it reads
the slice `commonLabels` each time the SDK runs it. -/
structure ObserverCallback where
  value : Decimal
  deriving DecidableEq, Repr

/-- The calls that `main` makes on the SDK, the logger and the runtime, in the
order of the statements of `main`, with their arguments.  The constructors of
argument values (`stdout.WithQuantiles`, `sdktrace.WithSpanProcessor`,
`basic.New`, `pusher.MeterProvider`, `otel.Must`, `otel.WithDescription`,
`otel.WithAttributes`, `Measurement`, `context.Background`,
`otel.ContextWithBaggageValues`) are part of the argument they build. -/
inductive Call where
  | newExporter (opts : List ExporterOption)
  | logFatalf (format : String) (arg : String)
  | newBatchSpanProcessor
  | bspShutdown
  | newTracerProvider
  | pushNew
  | pusherStart
  | pusherStop
  | setTracerProvider
  | setMeterProvider
  | setTextMapPropagator
  | globalTracer (name : String)
  | globalMeter (name : String)
  | newFloat64ValueObserver (name : String) (callback : ObserverCallback)
      (description : String)
  | newFloat64ValueRecorder (name : String)
  | bind (instrument : String) (labels : List KeyValue)
  | unbind (b : BoundInstrument)
  | tracerStart (ctx : Ctx) (name : String)
  | spanEnd (s : Span)
  | spanAddEvent (s : Span) (name : String) (attrs : List KeyValue)
  | spanSetAttributes (s : Span) (attrs : List KeyValue)
  | recordBatch (ctx : Ctx) (labels : List KeyValue) (ms : List Measurement)
  | boundRecord (b : BoundInstrument) (ctx : Ctx) (value : Decimal)
  | panic (err : String)
  deriving DecidableEq, Repr

/-! ## Part I: a monad for Go function bodies -/

/-- How a piece of Go code leaves: with a value, by ending the process
(`os.Exit`, reached through `log.Fatalf`), or panicking. -/
inductive Res (α : Type) where
  | val (a : α)
  | exit (code : Nat)
  | panic (err : String)
  deriving DecidableEq, Repr

/-- The observable state of a run: the calls made so far, for every active
function its stack of deferred calls (innermost function first, last deferred
call first), and the elements of the slice `commonLabels`, which `main`, its
function literals and the SDK calls that are handed the slice all share. -/
structure GoState where
  trace : List Call
  frames : List (List Call)
  commonLabels : List KeyValue
  deriving DecidableEq, Repr

/-- A Go computation. -/
def Go (α : Type) : Type := GoState → Res α × GoState

/-- Sequencing: the rest runs only when the first part leaves with a value. -/
def Go.bind {α β : Type} (m : Go α) (f : α → Go β) : Go β := fun s =>
  match m s with
  | (Res.val a, s1) => f a s1
  | (Res.exit c, s1) => (Res.exit c, s1)
  | (Res.panic e, s1) => (Res.panic e, s1)

instance : Monad Go where
  pure a := fun s => (Res.val a, s)
  bind := Go.bind

/-- Make a call: it is appended to the trace. -/
def call (c : Call) : Go Unit := fun s =>
  (Res.val (), { s with trace := s.trace ++ [c] })

/-- The statement `defer c`: the call is pushed on the deferred stack of the
innermost active function. -/
def deferCall (c : Call) : Go Unit := fun s =>
  match s.frames with
  | [] => (Res.val (), { s with frames := [[c]] })
  | f :: fs => (Res.val (), { s with frames := (c :: f) :: fs })

/-- The function `log.Fatalf`: the message is logged and the process ends with
status 1; no deferred call runs. -/
def logFatalf {α : Type} (format : String) (arg : String) : Go α := fun s =>
  (Res.exit 1, { s with trace := s.trace ++ [Call.logFatalf format arg] })

/-- The builtin `panic`. -/
def goPanic {α : Type} (err : String) : Go α := fun s =>
  (Res.panic err, { s with trace := s.trace ++ [Call.panic err] })

/-- Calling a function: its body runs with a fresh deferred stack; when the body
returns or panics, its deferred calls run, last deferred first; when the
process exits inside the body they do not. -/
def func {α : Type} (body : Go α) : Go α := fun s =>
  match body { s with frames := [] :: s.frames } with
  | (Res.exit c, s1) => (Res.exit c, s1)
  | (r, s1) =>
    (r, { s1 with trace := s1.trace ++ s1.frames.headD [], frames := s1.frames.tail })

/-! ## Part I: the program -/

/-- The function `tracer.Start`: the call is recorded and a span handle is
returned, together with the context that carries the span. -/
def tracerStart (ctx : Ctx) (name : String) : Go (Ctx × Span) := do
  call (Call.tracerStart ctx name)
  pure (Ctx.withSpan ctx name, ⟨ctx, name⟩)

/-- The function `stdout.NewExporter`; whether it returns an error is decided
by the environment of the run. -/
def newExporter (result : Option String) (opts : List ExporterOption) :
    Go (Option String) := do
  call (Call.newExporter opts)
  pure result

/-- The composite literal that `main` assigns to its local variable
`commonLabels`: the labels in the order in which they are written. -/
def commonLabels : List KeyValue :=
  [keyInt lemonsKey 10, labelString "A" "1", labelString "B" "2", labelString "C" "3"]

/-- The assignment to the local variable `commonLabels`. -/
def setCommonLabels (kvs : List KeyValue) : Go Unit := fun s =>
  (Res.val (), { s with commonLabels := kvs })

/-- Reading the local variable `commonLabels`: the elements the slice holds at
this point of the run. -/
def getCommonLabels : Go (List KeyValue) := fun s => (Res.val s.commonLabels, s)

/-- The order of Go strings on their characters: lexicographic, a proper
beginning coming first.  Go compares the bytes of the UTF-8 encoding, which
orders strings as their code points do. -/
def codesLess : List Nat → List Nat → Bool
  | _, [] => false
  | [], _ :: _ => true
  | a :: as, b :: bs => if a < b then true else if b < a then false else codesLess as bs

/-- Whether a label key comes before another one, as Go strings. -/
def keyLess (a b : String) : Bool :=
  codesLess (a.data.map Char.toNat) (b.data.map Char.toNat)

/-- Insertion of a label after the labels whose key is not greater. -/
def insertByKey (kv : KeyValue) : List KeyValue → List KeyValue
  | [] => [kv]
  | x :: xs => if keyLess kv.key x.key then kv :: x :: xs else x :: insertByKey kv xs

/-- Modelled from the spec: the label-set constructor of the SDK is missing from
the sources.  The SDK calls that take a label slice (`Bind`, `RecordBatch`,
`Observe`) build the label set in the slice they are given: the slice is sorted
by key with a stable sort, in place, so that the caller sees the new order.
The removal of repeated keys that follows moves nothing in a slice whose keys
are distinct, as those of `commonLabels` are. -/
def sortByKey (kvs : List KeyValue) : List KeyValue :=
  kvs.foldl (fun acc kv => insertByKey kv acc) []

/-- The method `Float64ValueRecorder.Bind` called with `commonLabels...`: the
slice itself is handed over, the call is recorded with the elements it holds on
entry, the SDK sorts it in place, and the instrument is bound to the label set
so built. -/
def bindCommonLabels (instrument : String) : Go BoundInstrument := do
  let labels ← getCommonLabels
  call (Call.bind instrument labels)
  setCommonLabels (sortByKey labels)
  pure ⟨instrument, sortByKey labels⟩

/-- The method `meter.RecordBatch` called with the slice `commonLabels`: the call
is recorded with the elements the slice holds on entry, and the SDK sorts it in
place. -/
def recordBatchCommonLabels (ctx : Ctx) (ms : List Measurement) : Go Unit := do
  let labels ← getCommonLabels
  call (Call.recordBatch ctx labels ms)
  setCommonLabels (sortByKey labels)

/-- The local function `oneMetricCB` of `main`: it observes 1; the labels are
those the slice `commonLabels` holds when the SDK runs the function. -/
def oneMetricCB : ObserverCallback := ⟨⟨1, 0⟩⟩

/-- What an observer callback of `main` reports when the SDK runs it in a state
of the run: `result.Observe(value, commonLabels...)`. -/
def ObserverCallback.observe (cb : ObserverCallback) (s : GoState) :
    Decimal × List KeyValue :=
  (cb.value, s.commonLabels)

/-- The inner function literal of `main` (the sub operation); its result is the
returned `error`, `none` being `nil`. -/
def subOperation (valuerecorder : BoundInstrument) (ctx : Ctx) : Go (Option String) :=
  func do
    let (ctx, span) ← tracerStart ctx "Sub operation..."
    deferCall (Call.spanEnd span)
    call (Call.spanSetAttributes span [keyString lemonsKey "five"])
    call (Call.spanAddEvent span "Sub span event" [])
    call (Call.boundRecord valuerecorder ctx ⟨13, 1⟩)
    pure none

/-- The outer function literal of `main` (the operation). -/
def operation (valuerecorderTwo : String) (valuerecorder : BoundInstrument) (ctx : Ctx) :
    Go (Option String) :=
  func do
    let (ctx, span) ← tracerStart ctx "operation"
    deferCall (Call.spanEnd span)
    call (Call.spanAddEvent span "Nice operation!" [labelInt "bogons" 100])
    call (Call.spanSetAttributes span [keyString anotherKey "yes"])
    recordBatchCommonLabels
      (Ctx.withBaggageValues ctx [keyString anotherKey "xyz"])
      [⟨valuerecorderTwo, ⟨20, 1⟩⟩]
    subOperation valuerecorder ctx

/-- The body of `main`.  The argument is what `stdout.NewExporter` returns as
its error in this run (`none` is `nil`). -/
def mainBody (exporterErr : Option String) : Go Unit := do
  let err ← newExporter exporterErr
    [ExporterOption.withQuantiles [⟨5, 1⟩, ⟨9, 1⟩, ⟨99, 2⟩], ExporterOption.withPrettyPrint]
  match err with
  | some e => logFatalf "failed to initialize stdout export pipeline: %v" e
  | none => pure ()
  call Call.newBatchSpanProcessor
  deferCall Call.bspShutdown
  call Call.newTracerProvider
  call Call.pushNew
  call Call.pusherStart
  deferCall Call.pusherStop
  call Call.setTracerProvider
  call Call.setMeterProvider
  call Call.setTextMapPropagator
  call (Call.globalTracer "ex.com/basic")
  call (Call.globalMeter "ex.com/basic")
  setCommonLabels commonLabels
  call (Call.newFloat64ValueObserver "ex.com.one" oneMetricCB "A ValueObserver set to 1.0")
  call (Call.newFloat64ValueRecorder "ex.com.two")
  let valuerecorderTwo := "ex.com.two"
  let ctx := Ctx.background
  let ctx := Ctx.withBaggageValues ctx [keyString fooKey "foo1", keyString barKey "bar1"]
  let valuerecorder ← bindCommonLabels valuerecorderTwo
  deferCall (Call.unbind valuerecorder)
  let err ← operation valuerecorderTwo valuerecorder ctx
  match err with
  | some e => goPanic e
  | none => pure ()

/-- The state in which a run starts: nothing called, no function active. -/
def initial : GoState := ⟨[], [], []⟩

/-- A run of the program `main`. -/
def main (exporterErr : Option String) : Res Unit × GoState :=
  func (mainBody exporterErr) initial

/-! ## Part I: reading a call trace -/

/-- Modelled from the spec: the baggage value a context carries for a key.  The
SDK functions `otel.ContextWithBaggageValues` and `tracer.Start` are missing
from the sources; the program attaches baggage values with the first, which
sets the given entries (a later entry of the same call wins) and keeps the
other entries of the parent context, and the context returned by the second
keeps the baggage of the context the span was started with. -/
def Ctx.baggageValue : Ctx → String → Option Value
  | Ctx.background, _ => none
  | Ctx.withBaggageValues parent kvs, k =>
    match kvs.reverse.find? (fun kv => kv.key = k) with
    | some kv => some kv.value
    | none => Ctx.baggageValue parent k
  | Ctx.withSpan parent _, k => Ctx.baggageValue parent k

/-- The spans started in a trace, in order: for every `tracer.Start` call the
context it was given and the span name. -/
def spanStarts : List Call → List (Ctx × String)
  | [] => []
  | Call.tracerStart ctx name :: rest => (ctx, name) :: spanStarts rest
  | _ :: rest => spanStarts rest

/-- The spans ended in a trace, in order. -/
def spanEnds : List Call → List Span
  | [] => []
  | Call.spanEnd s :: rest => s :: spanEnds rest
  | _ :: rest => spanEnds rest

/-- One recorded measurement: the instrument, the labels, the value, the
context of the call, and whether it went through a bound instrument (otherwise
through `meter.RecordBatch`). -/
structure Recording where
  instrument : String
  labels : List KeyValue
  value : Decimal
  ctx : Ctx
  bound : Bool
  deriving DecidableEq, Repr

/-- The measurements recorded in a trace, in order. -/
def recordings : List Call → List Recording
  | [] => []
  | Call.recordBatch ctx labels ms :: rest =>
    ms.map (fun m => ⟨m.instrument, labels, m.value, ctx, false⟩) ++ recordings rest
  | Call.boundRecord b ctx v :: rest =>
    ⟨b.instrument, b.labels, v, ctx, true⟩ :: recordings rest
  | _ :: rest => recordings rest

/-- The context a call is given, for the calls that take one. -/
def Call.ctx? : Call → Option Ctx
  | Call.tracerStart ctx _ => some ctx
  | Call.recordBatch ctx _ _ => some ctx
  | Call.boundRecord _ ctx _ => some ctx
  | _ => none

/-- Whether a call is a `meter.RecordBatch` call. -/
def Call.isRecordBatch : Call → Bool
  | Call.recordBatch _ _ _ => true
  | _ => false

/-- Whether a call is a `span.End` call. -/
def Call.isSpanEnd : Call → Bool
  | Call.spanEnd _ => true
  | _ => false

/-- Whether a call is the builtin `panic`. -/
def Call.isPanic : Call → Bool
  | Call.panic _ => true
  | _ => false

/-- The context with which `main` enters the outer function literal. -/
def rootCtx : Ctx :=
  Ctx.withBaggageValues Ctx.background [keyString fooKey "foo1", keyString barKey "bar1"]

/-- The span named "operation" that `main` starts. -/
def operationSpan : Span := ⟨rootCtx, "operation"⟩

/-- The span named "Sub operation..." that `main` starts. -/
def subSpan : Span := ⟨operationSpan.ctx, "Sub operation..."⟩

/-- The elements of the slice `commonLabels` in the order in which `Bind` leaves
them: sorted by key. -/
def sortedLabels : List KeyValue :=
  [labelString "A" "1", labelString "B" "2", labelString "C" "3", keyInt lemonsKey 10]

/-- The instrument that `main` binds to `commonLabels`, with the label set that
`Bind` built. -/
def boundTwo : BoundInstrument := ⟨"ex.com.two", sortedLabels⟩

end Basic

namespace SpanProcessor

/-! ## Part II: the batching span processor

The processor behind `sdktrace.NewBatchSpanProcessor` is not among the embedded
sources; the definitions of this part follow the specification of its four
components. -/

/-- Modelled from the spec: the `FinishedSpan` record of the data model (the
span type of the SDK is missing from the sources).  Identifiers and timestamps
are numbers, attributes are ordered key-value pairs, events are timestamped
sub-records. -/
structure FinishedSpan where
  traceId : Nat
  spanId : Nat
  name : String
  startTime : Nat
  endTime : Nat
  attributes : List (String × String)
  events : List (Nat × String)
  status : Nat
  deriving DecidableEq, Repr

/-- Modelled from the spec: a `Batch` is an ordered sequence of finished spans
(the batch type of the SDK is missing from the sources). -/
abbrev Batch : Type := List FinishedSpan

/-- Modelled from the spec: the error taxonomy of the core (section 7); the
SDK's own error values are missing from the sources. -/
inductive CoreError where
  | bufferOverflow
  | exportError
  | exportExhausted
  | shutdownTimeout
  deriving DecidableEq, Repr

/-- Modelled from the spec: the Span Buffer (section 4.1), a bounded queue of
finished spans, oldest first, with its fixed capacity and its internal drop
counter.  The queue of the SDK is missing from the sources. -/
structure SpanBuffer where
  capacity : Nat
  spans : List FinishedSpan
  dropped : Nat
  deriving DecidableEq, Repr

/-- Modelled from the spec: a buffer as constructed, with its capacity fixed and
nothing buffered (the constructor of the SDK's queue is missing from the
sources).  The drop counter starts at `dropped`. -/
def SpanBuffer.empty (capacity : Nat) (dropped : Nat) : SpanBuffer :=
  ⟨capacity, [], dropped⟩

/-- Modelled from the spec: `enqueue(span)` of section 4.1 (the SDK's enqueue is
missing from the sources).  Below capacity the span is appended.  At capacity
the new span is inserted and the oldest span of the queue is evicted and
counted, so that the capacity is never exceeded (section 3); for a buffer that
holds a span this is the oldest buffered span.  The result type leaves room for
the errors of section 7; the operation returns none of them. -/
def SpanBuffer.enqueue (b : SpanBuffer) (s : FinishedSpan) : Except CoreError SpanBuffer :=
  if b.spans.length < b.capacity then
    Except.ok { b with spans := b.spans ++ [s] }
  else
    Except.ok { b with spans := (b.spans ++ [s]).drop 1, dropped := b.dropped + 1 }

/-- Modelled from the spec: `drainAll()` of section 4.1 (missing from the
sources): all buffered spans are removed and returned in one step. -/
def SpanBuffer.drainAll (b : SpanBuffer) : List FinishedSpan × SpanBuffer :=
  (b.spans, { b with spans := [] })

/-- A sequence of `enqueue` calls, in order; it stops at the first call that
fails. -/
def SpanBuffer.enqueueAll (b : SpanBuffer) : List FinishedSpan → Except CoreError SpanBuffer
  | [] => Except.ok b
  | s :: rest =>
    match b.enqueue s with
    | Except.ok b1 => SpanBuffer.enqueueAll b1 rest
    | Except.error e => Except.error e

/-- Modelled from the spec: the configuration surface of section 6, durations
counted in ticks of an abstract clock (the SDK's options are missing from the
sources). -/
structure Config where
  maxBatchSize : Nat
  batchTimeout : Nat
  bufferCapacity : Nat
  maxRetries : Nat
  retryBackoff : Nat
  shutdownTimeout : Nat
  deriving DecidableEq, Repr

/-- Modelled from the spec: the states of the lifecycle controller (section
4.4). -/
inductive LifecycleState where
  | Stopped
  | Running
  | Draining
  deriving DecidableEq, Repr

/-- Modelled from the spec: what a lifecycle call reports: success, a shutdown
cut short by its timeout, or a call for which section 4.4 defines no
transition. -/
inductive Report where
  | success
  | incompleteShutdown
  | undefinedTransition
  deriving DecidableEq, Repr

/-- Modelled from the spec: the reply of the exporter capability to one
`exportBatch` call (section 6): an acknowledgement or an export error, and the
time the call took. -/
structure Reply where
  ack : Bool
  elapsed : Nat
  deriving DecidableEq, Repr

/-- Modelled from the spec: the exporter capability (section 6), an opaque
boundary: its reply may depend on the batch and on how many attempts came
before. -/
abbrev Exporter : Type := Batch → Nat → Reply

/-- Modelled from the spec: the batching span processor as a whole (sections 2
and 4): the lifecycle state, the span buffer (whose content is the pending set
of batch formation), whether the periodic timer and the worker loop are
spawned, the batches formed and not yet exported, the batches delivered to the
exporter, and the failure counter. -/
structure Processor where
  cfg : Config
  state : LifecycleState
  buffer : SpanBuffer
  spawned : Bool
  outstanding : List Batch
  delivered : List Batch
  failures : Nat
  deriving DecidableEq, Repr

/-- Modelled from the spec: a processor as constructed: stopped, with an empty
buffer of the configured capacity. -/
def Processor.create (cfg : Config) : Processor :=
  { cfg := cfg, state := LifecycleState.Stopped,
    buffer := SpanBuffer.empty cfg.bufferCapacity 0, spawned := false,
    outstanding := [], delivered := [], failures := 0 }

/-- Modelled from the spec: a trigger of Batch Formation (section 4.2): the
pending spans are snapshot into a batch and the pending set is reset; an empty
pending set produces no batch. -/
def Processor.formBatch (p : Processor) : Processor :=
  match p.buffer.spans with
  | [] => p
  | s :: rest =>
    { p with buffer := (p.buffer.drainAll).2,
             outstanding := p.outstanding ++ [s :: rest] }

/-- Modelled from the spec: the timer trigger (section 4.2, (b)); the timer
exists while the processor runs (section 4.4). -/
def Processor.timerTick (p : Processor) : Processor :=
  match p.state with
  | LifecycleState.Running => p.formBatch
  | _ => p

/-- A number of timer triggers in a row. -/
def Processor.timerTicks : Nat → Processor → Processor
  | 0, p => p
  | n + 1, p => Processor.timerTicks n p.timerTick

/-- Modelled from the spec: the application ends a span (section 2): the span
is enqueued and, when the pending count reaches the configured maximum, the
size trigger fires (section 4.2, (a)). -/
def Processor.onEnd (p : Processor) (s : FinishedSpan) : Except CoreError Processor :=
  match p.buffer.enqueue s with
  | Except.error e => Except.error e
  | Except.ok b =>
    let p1 := { p with buffer := b }
    if p.cfg.maxBatchSize ≤ b.spans.length then Except.ok p1.formBatch else Except.ok p1

/-- Modelled from the spec: the Export Worker on one batch (section 4.3): the
exporter is called; on an export error the call is retried while retries are
left; the result is whether the batch was delivered, and the time spent,
backoff included.  `attempt` counts the calls made before. -/
def exportWithRetry (exporter : Exporter) (backoff : Nat) (batch : Batch) :
    Nat → Nat → Bool × Nat
  | 0, attempt => ((exporter batch attempt).ack, (exporter batch attempt).elapsed)
  | retries + 1, attempt =>
    if (exporter batch attempt).ack then (true, (exporter batch attempt).elapsed)
    else
      let r := exportWithRetry exporter backoff batch retries (attempt + 1)
      (r.1, (exporter batch attempt).elapsed + backoff + r.2)

/-- Modelled from the spec: the worker processes the outstanding batches in the
order they were formed, as long as the time left allows (sections 4.3, 4.4 and
5).  A batch whose retries are exhausted is dropped and counted.  When the
time runs out the remaining batches are abandoned, their spans counted as
failures, and the drain is reported incomplete. -/
def drain (exporter : Exporter) (cfg : Config) :
    List Batch → Nat → List Batch → Nat → Report × List Batch × Nat
  | [], _, delivered, failures => (Report.success, delivered, failures)
  | b :: rest, time, delivered, failures =>
    let r := exportWithRetry exporter cfg.retryBackoff b cfg.maxRetries 0
    if r.2 ≤ time then
      if r.1 then drain exporter cfg rest (time - r.2) (delivered ++ [b]) failures
      else drain exporter cfg rest (time - r.2) delivered (failures + 1)
    else
      (Report.incompleteShutdown, delivered,
        failures + ((b :: rest).map List.length).sum)

/-- Modelled from the spec: `start()` (section 4.4): `Stopped -> Running`,
spawning the timer and the worker loop; a no-op returning success when already
running. -/
def Processor.start (p : Processor) : Report × Processor :=
  match p.state with
  | LifecycleState.Stopped =>
    (Report.success, { p with state := LifecycleState.Running, spawned := true })
  | LifecycleState.Running => (Report.success, p)
  | LifecycleState.Draining => (Report.undefinedTransition, p)

/-- Modelled from the spec: the first step of `shutdown` (section 4.4):
`Running -> Draining`, the timer stops, and one final batch is formed over all
remaining buffered spans. -/
def Processor.beginDrain (p : Processor) : Processor :=
  { p with state := LifecycleState.Draining, spawned := false }.formBatch

/-- Modelled from the spec: the second step of `shutdown` (section 4.4): the
outstanding batches are processed up to `timeout`, then `Draining -> Stopped`. -/
def Processor.finishDrain (exporter : Exporter) (timeout : Nat) (p : Processor) :
    Report × Processor :=
  let r := drain exporter p.cfg p.outstanding timeout p.delivered p.failures
  (r.1, { p with state := LifecycleState.Stopped, outstanding := [],
                 delivered := r.2.1, failures := r.2.2 })

/-- Modelled from the spec: `shutdown(timeout)` (section 4.4); a no-op returning
success when already stopped. -/
def Processor.shutdown (exporter : Exporter) (timeout : Nat) (p : Processor) :
    Report × Processor :=
  match p.state with
  | LifecycleState.Stopped => (Report.success, p)
  | LifecycleState.Running => p.beginDrain.finishDrain exporter timeout
  | LifecycleState.Draining => (Report.undefinedTransition, p)

/-- A finished span to try the buffer on. -/
def sampleSpan (n : Nat) : FinishedSpan :=
  ⟨7, n, "operation", 10, 20, [("ex.com/another", "yes")], [(12, "Nice operation!")], 0⟩

end SpanProcessor

/-! ## Part I: theorems about `main` -/

namespace Basic

/-- The calls of a run of `main` in which `stdout.NewExporter` returns no
error, in order. -/
theorem main_trace_ok :
    (main none).2.trace =
      [Call.newExporter
          [ExporterOption.withQuantiles [⟨5, 1⟩, ⟨9, 1⟩, ⟨99, 2⟩],
            ExporterOption.withPrettyPrint],
        Call.newBatchSpanProcessor, Call.newTracerProvider, Call.pushNew,
        Call.pusherStart, Call.setTracerProvider, Call.setMeterProvider,
        Call.setTextMapPropagator, Call.globalTracer "ex.com/basic",
        Call.globalMeter "ex.com/basic",
        Call.newFloat64ValueObserver "ex.com.one" oneMetricCB "A ValueObserver set to 1.0",
        Call.newFloat64ValueRecorder "ex.com.two",
        Call.bind "ex.com.two" commonLabels,
        Call.tracerStart rootCtx "operation",
        Call.spanAddEvent operationSpan "Nice operation!" [labelInt "bogons" 100],
        Call.spanSetAttributes operationSpan [keyString anotherKey "yes"],
        Call.recordBatch
          (Ctx.withBaggageValues operationSpan.ctx [keyString anotherKey "xyz"])
          sortedLabels [⟨"ex.com.two", ⟨20, 1⟩⟩],
        Call.tracerStart operationSpan.ctx "Sub operation...",
        Call.spanSetAttributes subSpan [keyString lemonsKey "five"],
        Call.spanAddEvent subSpan "Sub span event" [],
        Call.boundRecord boundTwo subSpan.ctx ⟨13, 1⟩,
        Call.spanEnd subSpan, Call.spanEnd operationSpan,
        Call.unbind boundTwo, Call.pusherStop, Call.bspShutdown] := by
  decide

/-- The calls of a run of `main` in which `stdout.NewExporter` returns the
error `e`, in order. -/
theorem main_trace_error (e : String) :
    main (some e) =
      (Res.exit 1,
        ⟨[Call.newExporter
            [ExporterOption.withQuantiles [⟨5, 1⟩, ⟨9, 1⟩, ⟨99, 2⟩],
              ExporterOption.withPrettyPrint],
          Call.logFatalf "failed to initialize stdout export pipeline: %v" e],
         [[]], []⟩) :=
  rfl

/-- Whatever the state it is called in, the outer function literal of `main`
returns, and returns `nil`. -/
theorem operation_returns_nil (v : String) (b : BoundInstrument) (ctx : Ctx) (s : GoState) :
    (operation v b ctx s).1 = Res.val none :=
  rfl

/-- Whatever the state it is called in, the inner function literal of `main`
returns, and returns `nil`. -/
theorem subOperation_returns_nil (b : BoundInstrument) (ctx : Ctx) (s : GoState) :
    (subOperation b ctx s).1 = Res.val none :=
  rfl

/-- When the run of `main` without exporter error is over, the slice
`commonLabels` is sorted by key, so the observer callback `oneMetricCB`, which
the SDK runs after `Bind`, observes 1 with the labels in that order. -/
theorem oneMetricCB_observes_sorted :
    (main none).2.commonLabels = sortedLabels ∧
    oneMetricCB.observe (main none).2 = (⟨1, 0⟩, sortedLabels) := by
  decide

/-- C1: in the run of `main` in which `stdout.NewExporter` returns no error,
`main` returns normally; exactly two spans are started, "operation" and then
"Sub operation..."; the second is started with the context that starting the
first returned; the spans ended are exactly these two, each once, the sub span
first; and each span is ended after it was started. -/
theorem C1_two_spans_started_and_ended :
    (main none).1 = Res.val () ∧
    spanStarts (main none).2.trace =
      [(rootCtx, "operation"), (operationSpan.ctx, "Sub operation...")] ∧
    operationSpan.ctx = Ctx.withSpan rootCtx "operation" ∧
    subSpan.parent = operationSpan.ctx ∧
    spanEnds (main none).2.trace = [subSpan, operationSpan] ∧
    (main none).2.trace.count (Call.spanEnd subSpan) = 1 ∧
    (main none).2.trace.count (Call.spanEnd operationSpan) = 1 ∧
    List.Sublist
      [Call.tracerStart rootCtx "operation",
        Call.tracerStart operationSpan.ctx "Sub operation...",
        Call.spanEnd subSpan, Call.spanEnd operationSpan]
      (main none).2.trace := by
  decide

/-- C2: in the run of `main` in which `stdout.NewExporter` returns no error,
the context given to `meter.RecordBatch` is the context of the "operation" span
extended at the call site with `ex.com/another`, and it carries
`ex.com/foo = "foo1"`, `ex.com/bar = "bar1"` and `ex.com/another = "xyz"`; the
context given to `tracer.Start` for "Sub operation..." and the context given to
the bound instrument's `Record` with 1.3 carry `ex.com/foo = "foo1"` and
`ex.com/bar = "bar1"` and no `ex.com/another`; and among all calls that take a
context, exactly the `RecordBatch` call sees an `ex.com/another` entry. -/
theorem C2_baggage_added_at_call_site_only :
    (∀ c ∈ (main none).2.trace, ∀ labels ms ctx,
      c = Call.recordBatch ctx labels ms →
        ctx = Ctx.withBaggageValues operationSpan.ctx [keyString anotherKey "xyz"] ∧
        ctx.baggageValue "ex.com/foo" = some (Value.str "foo1") ∧
        ctx.baggageValue "ex.com/bar" = some (Value.str "bar1") ∧
        ctx.baggageValue "ex.com/another" = some (Value.str "xyz")) ∧
    (∀ c ∈ (main none).2.trace, ∀ ctx,
      c = Call.tracerStart ctx "Sub operation..." →
        ctx = operationSpan.ctx ∧
        ctx.baggageValue "ex.com/foo" = some (Value.str "foo1") ∧
        ctx.baggageValue "ex.com/bar" = some (Value.str "bar1") ∧
        ctx.baggageValue "ex.com/another" = none) ∧
    (∀ c ∈ (main none).2.trace, ∀ b ctx,
      c = Call.boundRecord b ctx ⟨13, 1⟩ →
        ctx = subSpan.ctx ∧
        ctx.baggageValue "ex.com/foo" = some (Value.str "foo1") ∧
        ctx.baggageValue "ex.com/bar" = some (Value.str "bar1") ∧
        ctx.baggageValue "ex.com/another" = none) ∧
    (main none).2.trace.countP Call.isRecordBatch = 1 ∧
    spanStarts (main none).2.trace =
      [(rootCtx, "operation"), (operationSpan.ctx, "Sub operation...")] ∧
    (recordings (main none).2.trace).map (fun r => (r.value, r.ctx, r.bound)) =
      [(⟨20, 1⟩, Ctx.withBaggageValues operationSpan.ctx [keyString anotherKey "xyz"], false),
        (⟨13, 1⟩, subSpan.ctx, true)] ∧
    (∀ c ∈ (main none).2.trace, ∀ ctx, c.ctx? = some ctx →
      (ctx.baggageValue "ex.com/another" ≠ none ↔ c.isRecordBatch = true)) := by
  rw [main_trace_ok]
  refine ⟨?_, ?_, ?_, by decide, by decide, by decide, by decide⟩
  · intro c hc labels ms ctx h
    subst h
    simp only [List.mem_cons, List.mem_singleton, reduceCtorEq, false_or, or_false,
      Call.recordBatch.injEq, List.not_mem_nil] at hc
    obtain ⟨h1, -, -⟩ := hc
    subst h1
    decide
  · intro c hc ctx h
    subst h
    simp only [List.mem_cons, List.mem_singleton, reduceCtorEq, false_or, or_false,
      Call.tracerStart.injEq, List.not_mem_nil] at hc
    rcases hc with ⟨h1, h2⟩ | ⟨h1, -⟩
    · exact absurd h2 (by decide)
    · subst h1
      decide
  · intro c hc b ctx h
    subst h
    simp only [List.mem_cons, List.mem_singleton, reduceCtorEq, false_or, or_false,
      Call.boundRecord.injEq, List.not_mem_nil] at hc
    obtain ⟨-, h1, -⟩ := hc
    subst h1
    decide

end Basic

namespace Basic

/-- C3, as stated, fails on the label list: in the run of `main` in which
`stdout.NewExporter` returns no error, both measurements are recorded with the
list `A = "1"`, `B = "2"`, `C = "3"`, `ex.com/lemons = 10`, so it is not the case
that both are recorded with the list `ex.com/lemons = 10`, `A = "1"`, `B = "2"`,
`C = "3"`; in particular the slice that `meter.RecordBatch` is handed no longer
holds the labels in the order in which `main` wrote them. -/
theorem C3_label_list_not_in_written_order :
    (recordings (main none).2.trace).map (fun r => (r.value, r.labels)) =
      [(⟨20, 1⟩,
          [⟨"A", Value.str "1"⟩, ⟨"B", Value.str "2"⟩, ⟨"C", Value.str "3"⟩,
            ⟨"ex.com/lemons", Value.int 10⟩]),
        (⟨13, 1⟩,
          [⟨"A", Value.str "1"⟩, ⟨"B", Value.str "2"⟩, ⟨"C", Value.str "3"⟩,
            ⟨"ex.com/lemons", Value.int 10⟩])] ∧
    ¬ ((recordings (main none).2.trace).map (fun r => r.labels) =
      [[⟨"ex.com/lemons", Value.int 10⟩, ⟨"A", Value.str "1"⟩, ⟨"B", Value.str "2"⟩,
          ⟨"C", Value.str "3"⟩],
        [⟨"ex.com/lemons", Value.int 10⟩, ⟨"A", Value.str "1"⟩, ⟨"B", Value.str "2"⟩,
          ⟨"C", Value.str "3"⟩]]) ∧
    ¬ (Call.recordBatch
        (Ctx.withBaggageValues operationSpan.ctx [keyString anotherKey "xyz"])
        [⟨"ex.com/lemons", Value.int 10⟩, ⟨"A", Value.str "1"⟩, ⟨"B", Value.str "2"⟩,
          ⟨"C", Value.str "3"⟩]
        [⟨"ex.com.two", ⟨20, 1⟩⟩] ∈ (main none).2.trace) := by
  decide

/-- C3, amended: in the run of `main` in which `stdout.NewExporter` returns no
error, exactly two measurements are recorded, both on the value recorder
"ex.com.two": first 2.0 through `meter.RecordBatch` with the slice
`commonLabels`, then 1.3 through the instrument bound to `commonLabels`.  `Bind`
is handed the slice holding `ex.com/lemons = 10`, `A = "1"`, `B = "2"`,
`C = "3"` in this written order and leaves it sorted by key; both measurements
are recorded with the same label list, which holds exactly these four labels,
in the order `A`, `B`, `C`, `ex.com/lemons`.  The bound instrument is bound
before the first record and unbound, once, after the 1.3 record, and nothing is
recorded from the `Unbind` call on. -/
theorem C3_two_measurements_same_labels :
    recordings (main none).2.trace =
      [⟨"ex.com.two", sortedLabels, ⟨20, 1⟩,
          Ctx.withBaggageValues operationSpan.ctx [keyString anotherKey "xyz"], false⟩,
        ⟨"ex.com.two", sortedLabels, ⟨13, 1⟩, subSpan.ctx, true⟩] ∧
    commonLabels =
      [⟨"ex.com/lemons", Value.int 10⟩, ⟨"A", Value.str "1"⟩, ⟨"B", Value.str "2"⟩,
        ⟨"C", Value.str "3"⟩] ∧
    sortedLabels =
      [⟨"A", Value.str "1"⟩, ⟨"B", Value.str "2"⟩, ⟨"C", Value.str "3"⟩,
        ⟨"ex.com/lemons", Value.int 10⟩] ∧
    sortByKey commonLabels = sortedLabels ∧
    List.Perm sortedLabels commonLabels ∧
    (recordings (main none).2.trace).map (fun r => (r.instrument, r.labels)) =
      [("ex.com.two",
          [⟨"A", Value.str "1"⟩, ⟨"B", Value.str "2"⟩, ⟨"C", Value.str "3"⟩,
            ⟨"ex.com/lemons", Value.int 10⟩]),
        ("ex.com.two",
          [⟨"A", Value.str "1"⟩, ⟨"B", Value.str "2"⟩, ⟨"C", Value.str "3"⟩,
            ⟨"ex.com/lemons", Value.int 10⟩])] ∧
    List.Sublist
      [Call.newFloat64ValueRecorder "ex.com.two",
        Call.bind "ex.com.two" commonLabels,
        Call.recordBatch
          (Ctx.withBaggageValues operationSpan.ctx [keyString anotherKey "xyz"])
          sortedLabels [⟨"ex.com.two", ⟨20, 1⟩⟩],
        Call.boundRecord boundTwo subSpan.ctx ⟨13, 1⟩,
        Call.unbind boundTwo]
      (main none).2.trace ∧
    boundTwo.labels = sortedLabels ∧
    (main none).2.trace.count (Call.unbind boundTwo) = 1 ∧
    recordings
      ((main none).2.trace.drop ((main none).2.trace.indexOf (Call.unbind boundTwo))) = [] := by
  decide

/-- C8: in the run of `main` in which `stdout.NewExporter` returns no error,
the last five calls are, in this order, the end of the sub span, the end of the
"operation" span, `valuerecorder.Unbind`, `pusher.Stop` and `bsp.Shutdown`, the
reverse of the order in which the processor was created, the pusher started and
the instrument bound; no other call follows the first of them; `bsp.Shutdown`
is called exactly once and is the last call of the run; and no span is ended
from the `bsp.Shutdown` call on. -/
theorem C8_teardown_in_reverse_order :
    (main none).1 = Res.val () ∧
    (main none).2.trace.drop ((main none).2.trace.length - 5) =
      [Call.spanEnd subSpan, Call.spanEnd operationSpan, Call.unbind boundTwo,
        Call.pusherStop, Call.bspShutdown] ∧
    (main none).2.trace.drop ((main none).2.trace.indexOf (Call.spanEnd subSpan)) =
      [Call.spanEnd subSpan, Call.spanEnd operationSpan, Call.unbind boundTwo,
        Call.pusherStop, Call.bspShutdown] ∧
    List.Sublist
      [Call.newBatchSpanProcessor, Call.pusherStart, Call.bind "ex.com.two" commonLabels,
        Call.unbind boundTwo, Call.pusherStop, Call.bspShutdown]
      (main none).2.trace ∧
    spanEnds (main none).2.trace = [subSpan, operationSpan] ∧
    (main none).2.trace.count (Call.unbind boundTwo) = 1 ∧
    (main none).2.trace.count Call.pusherStop = 1 ∧
    (main none).2.trace.count Call.bspShutdown = 1 ∧
    (main none).2.trace.getLast? = some Call.bspShutdown ∧
    (∀ c ∈ (main none).2.trace.drop ((main none).2.trace.indexOf Call.bspShutdown),
      c.isSpanEnd = false) := by
  decide

/-- C9: in a run of `main` in which `stdout.NewExporter` returns an error `e`,
the process ends with status 1 through `log.Fatalf`, whose format starts with
"failed to initialize stdout export pipeline" and whose argument is `e`; the
only calls of the run are `stdout.NewExporter` and `log.Fatalf`, so no batch
span processor or tracer provider is created, the push controller is neither
created nor started, no global provider or propagator is set, no span is
started, no measurement is recorded, and no deferred call runs. -/
theorem C9_exporter_error_is_fatal (e : String) :
    (main (some e)).1 = Res.exit 1 ∧
    (main (some e)).2.trace =
      [Call.newExporter
          [ExporterOption.withQuantiles [⟨5, 1⟩, ⟨9, 1⟩, ⟨99, 2⟩],
            ExporterOption.withPrettyPrint],
        Call.logFatalf ("failed to initialize stdout export pipeline" ++ ": %v") e] ∧
    Call.newBatchSpanProcessor ∉ (main (some e)).2.trace ∧
    Call.newTracerProvider ∉ (main (some e)).2.trace ∧
    Call.pushNew ∉ (main (some e)).2.trace ∧
    Call.pusherStart ∉ (main (some e)).2.trace ∧
    Call.setTracerProvider ∉ (main (some e)).2.trace ∧
    Call.setMeterProvider ∉ (main (some e)).2.trace ∧
    Call.setTextMapPropagator ∉ (main (some e)).2.trace ∧
    Call.bspShutdown ∉ (main (some e)).2.trace ∧
    Call.pusherStop ∉ (main (some e)).2.trace ∧
    spanStarts (main (some e)).2.trace = [] ∧
    spanEnds (main (some e)).2.trace = [] ∧
    recordings (main (some e)).2.trace = [] := by
  rw [main_trace_error]
  refine ⟨rfl, rfl, ?_, ?_, ?_, ?_, ?_, ?_, ?_, ?_, ?_, rfl, rfl, rfl⟩ <;> simp

/-- C10: in every run of `main`, whatever `stdout.NewExporter` returns, the
builtin `panic` is not called and the run does not end panicking; the two
function literals that run the spans return `nil` in whatever state they are
called; and the run either returns normally or ends through `log.Fatalf`. -/
theorem C10_panic_unreachable (exporterErr : Option String) :
    (∀ c ∈ (main exporterErr).2.trace, c.isPanic = false) ∧
    (∀ err, (main exporterErr).1 ≠ Res.panic err) ∧
    (∀ v b ctx s, (operation v b ctx s).1 = Res.val none) ∧
    (∀ b ctx s, (subOperation b ctx s).1 = Res.val none) ∧
    ((main exporterErr).1 = Res.val () ∨ (main exporterErr).1 = Res.exit 1) := by
  refine ⟨?_, ?_, fun v b ctx s => operation_returns_nil v b ctx s,
    fun b ctx s => subOperation_returns_nil b ctx s, ?_⟩
  · cases exporterErr with
    | none => decide
    | some e =>
      rw [main_trace_error]
      intro c hc
      simp only [List.mem_cons, List.mem_singleton, List.not_mem_nil, or_false] at hc
      rcases hc with h | h <;> subst h <;> rfl
  · intro err
    cases exporterErr with
    | none =>
      have h : (main none).1 = Res.val () := by decide
      rw [h]
      simp
    | some e =>
      rw [main_trace_error]
      simp
  · cases exporterErr with
    | none => exact Or.inl (by decide)
    | some e => exact Or.inr (by rw [main_trace_error])

end Basic

/-! ## Part II: theorems about the batching span processor -/

namespace SpanProcessor

/-- One `enqueue` on a buffer that respects its capacity: the result. -/
theorem enqueue_eq (b : SpanBuffer) (s : FinishedSpan) :
    b.enqueue s =
      Except.ok
        (if b.spans.length < b.capacity then { b with spans := b.spans ++ [s] }
         else { b with spans := (b.spans ++ [s]).drop 1, dropped := b.dropped + 1 }) := by
  unfold SpanBuffer.enqueue
  split <;> rfl

/-- At capacity, on a buffer that holds a span, `enqueue` evicts the oldest
buffered span, counts it, and inserts the new span at the end. -/
theorem enqueue_at_capacity (b : SpanBuffer) (s oldest : FinishedSpan)
    (rest : List FinishedSpan) (hs : b.spans = oldest :: rest)
    (hfull : b.capacity ≤ b.spans.length) :
    b.enqueue s = Except.ok ⟨b.capacity, rest ++ [s], b.dropped + 1⟩ := by
  rw [enqueue_eq, if_neg (by omega), hs]
  rfl

/-- Below capacity `enqueue` appends the span and drops nothing. -/
theorem enqueue_below_capacity (b : SpanBuffer) (s : FinishedSpan)
    (hroom : b.spans.length < b.capacity) :
    b.enqueue s = Except.ok ⟨b.capacity, b.spans ++ [s], b.dropped⟩ := by
  rw [enqueue_eq, if_pos hroom]

/-- A sequence of `enqueue` calls on a buffer that respects its capacity keeps
the newest spans that fit and counts the others as dropped. -/
theorem enqueueAll_eq (l : List FinishedSpan) :
    ∀ b : SpanBuffer, b.spans.length ≤ b.capacity →
      b.enqueueAll l =
        Except.ok
          ⟨b.capacity, (b.spans ++ l).drop (b.spans.length + l.length - b.capacity),
            b.dropped + (b.spans.length + l.length - b.capacity)⟩ := by
  induction l with
  | nil =>
    intro b hb
    have h0 : b.spans.length - b.capacity = 0 := by omega
    cases b
    simp_all [SpanBuffer.enqueueAll]
  | cons s rest ih =>
    intro b hb
    rw [SpanBuffer.enqueueAll, enqueue_eq]
    by_cases hlt : b.spans.length < b.capacity
    · simp only [hlt, if_true]
      rw [ih _ (by simp; omega)]
      have e1 : (b.spans ++ [s]).length + rest.length - b.capacity
          = b.spans.length + (s :: rest).length - b.capacity := by
        simp; omega
      simp only [e1, List.append_assoc, List.singleton_append]
    · simp only [hlt, if_false]
      have hcap : b.spans.length = b.capacity := by omega
      have hlen : ((b.spans ++ [s]).drop 1).length = b.capacity := by
        simp; omega
      rw [ih _ (by simp only [hlen]; exact le_refl _)]
      simp only [hlen]
      have e1 : b.capacity + rest.length - b.capacity = rest.length := by omega
      have e2 : b.spans.length + (s :: rest).length - b.capacity = 1 + rest.length := by
        simp; omega
      have e3 : (b.spans ++ [s]).drop 1 ++ rest = (b.spans ++ s :: rest).drop 1 := by
        have h1 : b.spans ++ s :: rest = (b.spans ++ [s]) ++ rest := by simp
        rw [h1]
        exact (@List.drop_append_of_le_length _ (b.spans ++ [s]) rest 1 (by simp)).symm
      rw [e1, e2, e3, List.drop_drop]
      have e4 : b.dropped + 1 + rest.length = b.dropped + (1 + rest.length) := by omega
      rw [e4]

/-- A sequence of `enqueue` calls on an empty buffer. -/
theorem enqueueAll_empty (c d : Nat) (l : List FinishedSpan) :
    (SpanBuffer.empty c d).enqueueAll l =
      Except.ok ⟨c, l.drop (l.length - c), d + (l.length - c)⟩ := by
  have h := enqueueAll_eq l (SpanBuffer.empty c d) (Nat.zero_le _)
  simpa [SpanBuffer.empty] using h

/-- C4: for every capacity `c` and every sequence of spans not longer than `c`,
the `enqueue` calls on an empty span buffer all succeed, `drainAll()` then
returns exactly the enqueued spans in enqueue order and leaves the buffer
empty, and no span has been dropped. -/
theorem C4_drainAll_returns_enqueued (c d : Nat) (l : List FinishedSpan)
    (h : l.length ≤ c) :
    ∃ b : SpanBuffer,
      (SpanBuffer.empty c d).enqueueAll l = Except.ok b ∧
      b.drainAll.1 = l ∧
      b.drainAll.2.spans = [] ∧
      b.drainAll.2.capacity = c ∧
      b.dropped = d := by
  refine ⟨_, enqueueAll_empty c d l, ?_, rfl, rfl, ?_⟩
  · have h0 : l.length - c = 0 := by omega
    simp [SpanBuffer.drainAll, h0]
  · have h0 : l.length - c = 0 := by omega
    simp [h0]

/-- C4 at a concrete input: two spans into a buffer of capacity three. -/
theorem C4_drainAll_returns_enqueued_witness :
    [sampleSpan 1, sampleSpan 2].length ≤ 3 ∧
    ∃ b : SpanBuffer,
      (SpanBuffer.empty 3 0).enqueueAll [sampleSpan 1, sampleSpan 2] = Except.ok b ∧
      b.drainAll.1 = [sampleSpan 1, sampleSpan 2] ∧
      b.drainAll.2.spans = [] ∧
      b.drainAll.2.capacity = 3 ∧
      b.dropped = 0 :=
  ⟨by decide, C4_drainAll_returns_enqueued 3 0 [sampleSpan 1, sampleSpan 2] (by decide)⟩

/-- C5: for every capacity `c` and every `k`, enqueuing `c + k` spans into an
empty span buffer succeeds at every call (and `enqueue` returns no error on any
buffer); the buffer then holds exactly the last `c` spans in enqueue order, the
`k` oldest spans being the ones evicted; the drop counter has increased by
exactly `k`; and after every one of the calls the buffer holds at most `c`
spans. -/
theorem C5_overflow_evicts_oldest (c k d : Nat) (l : List FinishedSpan)
    (h : l.length = c + k) :
    ∃ b : SpanBuffer,
      (SpanBuffer.empty c d).enqueueAll l = Except.ok b ∧
      b.spans = l.drop k ∧
      l = l.take k ++ b.spans ∧
      b.spans.length = c ∧
      b.capacity = c ∧
      b.dropped = d + k ∧
      (∀ i : Nat, ∃ bi : SpanBuffer,
        (SpanBuffer.empty c d).enqueueAll (l.take i) = Except.ok bi ∧
        bi.spans.length ≤ c) ∧
      (∀ (b0 : SpanBuffer) (s : FinishedSpan), ∃ b1 : SpanBuffer,
        b0.enqueue s = Except.ok b1) := by
  have hk : l.length - c = k := by omega
  refine ⟨_, enqueueAll_empty c d l, ?_, ?_, ?_, rfl, ?_, ?_, ?_⟩
  · simp [hk]
  · simp [hk]
  · simp [hk]
    omega
  · simp [hk]
  · intro i
    refine ⟨_, enqueueAll_empty c d (l.take i), ?_⟩
    simp only [List.length_drop]
    omega
  · intro b0 s
    exact ⟨_, enqueue_eq b0 s⟩

/-- C5 at a concrete input: five spans into a buffer of capacity two, whose
drop counter stood at four. -/
theorem C5_overflow_evicts_oldest_witness :
    [sampleSpan 1, sampleSpan 2, sampleSpan 3, sampleSpan 4, sampleSpan 5].length = 2 + 3 ∧
    (SpanBuffer.empty 2 4).enqueueAll
        [sampleSpan 1, sampleSpan 2, sampleSpan 3, sampleSpan 4, sampleSpan 5] =
      Except.ok ⟨2, [sampleSpan 4, sampleSpan 5], 7⟩ ∧
    ∃ b : SpanBuffer,
      (SpanBuffer.empty 2 4).enqueueAll
          [sampleSpan 1, sampleSpan 2, sampleSpan 3, sampleSpan 4, sampleSpan 5] =
        Except.ok b ∧
      b.spans =
        [sampleSpan 1, sampleSpan 2, sampleSpan 3, sampleSpan 4, sampleSpan 5].drop 3 ∧
      [sampleSpan 1, sampleSpan 2, sampleSpan 3, sampleSpan 4, sampleSpan 5] =
        [sampleSpan 1, sampleSpan 2, sampleSpan 3, sampleSpan 4, sampleSpan 5].take 3 ++
          b.spans ∧
      b.spans.length = 2 ∧
      b.capacity = 2 ∧
      b.dropped = 4 + 3 ∧
      (∀ i : Nat, ∃ bi : SpanBuffer,
        (SpanBuffer.empty 2 4).enqueueAll
            ([sampleSpan 1, sampleSpan 2, sampleSpan 3, sampleSpan 4, sampleSpan 5].take i) =
          Except.ok bi ∧
        bi.spans.length ≤ 2) ∧
      (∀ (b0 : SpanBuffer) (s : FinishedSpan), ∃ b1 : SpanBuffer,
        b0.enqueue s = Except.ok b1) :=
  ⟨by decide, rfl,
    C5_overflow_evicts_oldest 2 3 4
      [sampleSpan 1, sampleSpan 2, sampleSpan 3, sampleSpan 4, sampleSpan 5] (by decide)⟩

/-- A timer trigger on an empty pending set changes nothing. -/
theorem timerTick_of_empty (p : Processor) (h : p.buffer.spans = []) : p.timerTick = p := by
  unfold Processor.timerTick Processor.formBatch
  cases hs : p.state <;> simp [h]

/-- Any number of timer triggers on an empty pending set changes nothing. -/
theorem timerTicks_of_empty (n : Nat) (p : Processor) (h : p.buffer.spans = []) :
    p.timerTicks n = p := by
  induction n with
  | zero => rfl
  | succ n ih => rw [Processor.timerTicks, timerTick_of_empty p h, ih]

/-- A batch formed by a trigger holds the pending spans, and there is one. -/
theorem formBatch_cases (p : Processor) :
    (p.buffer.spans = [] ∧ p.formBatch = p) ∨
    ∃ s rest, p.buffer.spans = s :: rest ∧
      p.formBatch.outstanding = p.outstanding ++ [s :: rest] ∧
      p.formBatch.buffer.spans = [] := by
  unfold Processor.formBatch
  cases hs : p.buffer.spans with
  | nil => exact Or.inl ⟨rfl, rfl⟩
  | cons s rest => exact Or.inr ⟨s, rest, rfl, rfl, rfl⟩

/-- A timer trigger on a running processor with pending spans emits them as
one batch and resets the pending set. -/
theorem timerTick_of_pending (p : Processor) (s : FinishedSpan) (rest : List FinishedSpan)
    (hr : p.state = LifecycleState.Running) (h : p.buffer.spans = s :: rest) :
    p.timerTick.outstanding = p.outstanding ++ [s :: rest] ∧
    p.timerTick.buffer.spans = [] := by
  unfold Processor.timerTick Processor.formBatch
  simp [hr, h, SpanBuffer.drainAll]

/-- C6: in the lifecycle controller, `start()` takes a stopped processor to
`Running`, `shutdown` takes a running processor through `Draining` to
`Stopped`; `start()` on a processor that is already `Running` and
`shutdown()` on a processor that is already `Stopped` return success and leave
the processor, its state and its buffer included, unchanged. -/
theorem C6_start_and_shutdown_noops (exporter : Exporter) (timeout : Nat) (p : Processor) :
    { p with state := LifecycleState.Running }.start =
      (Report.success, { p with state := LifecycleState.Running }) ∧
    ({ p with state := LifecycleState.Stopped }.shutdown exporter timeout) =
      (Report.success, { p with state := LifecycleState.Stopped }) ∧
    ({ p with state := LifecycleState.Running }.start).2.state = LifecycleState.Running ∧
    ({ p with state := LifecycleState.Running }.start).2.buffer = p.buffer ∧
    ({ p with state := LifecycleState.Stopped }.shutdown exporter timeout).2.state =
      LifecycleState.Stopped ∧
    ({ p with state := LifecycleState.Stopped }.shutdown exporter timeout).2.buffer =
      p.buffer ∧
    ({ p with state := LifecycleState.Stopped }.start).1 = Report.success ∧
    ({ p with state := LifecycleState.Stopped }.start).2.state = LifecycleState.Running ∧
    ({ p with state := LifecycleState.Running }.beginDrain).state = LifecycleState.Draining ∧
    ({ p with state := LifecycleState.Running }.shutdown exporter timeout) =
      { p with state := LifecycleState.Running }.beginDrain.finishDrain exporter timeout ∧
    ({ p with state := LifecycleState.Running }.shutdown exporter timeout).2.state =
      LifecycleState.Stopped := by
  refine ⟨rfl, rfl, rfl, rfl, rfl, rfl, rfl, rfl, ?_, rfl, rfl⟩
  rcases formBatch_cases
    { p with state := LifecycleState.Draining, spawned := false } with h | ⟨s, rest, h, -, -⟩
  · unfold Processor.beginDrain
    simp only [] at h ⊢
    rw [h.2]
  · unfold Processor.beginDrain Processor.formBatch
    simp only [] at h ⊢
    rw [h]

/-- C7: whatever the number `n` of timer triggers, a processor that was created
and started and on which no span was enqueued is unchanged by them and has
formed and delivered no batch; more generally `n` timer triggers on any
processor whose pending set is empty change nothing; and a timer trigger on
any processor either leaves the formed batches as they were or adds one batch
that holds at least one span. -/
theorem C7_no_spans_no_batch (cfg : Config) (p : Processor) (n : Nat) :
    (Processor.create cfg).start.2.state = LifecycleState.Running ∧
    (Processor.create cfg).start.2.timerTicks n = (Processor.create cfg).start.2 ∧
    ((Processor.create cfg).start.2.timerTicks n).outstanding = [] ∧
    ((Processor.create cfg).start.2.timerTicks n).delivered = [] ∧
    { p with buffer := { p.buffer with spans := [] } }.timerTicks n =
      { p with buffer := { p.buffer with spans := [] } } ∧
    (p.timerTick.outstanding = p.outstanding ∨
      ∃ s rest, p.timerTick.outstanding = p.outstanding ++ [s :: rest]) := by
  have h1 : (Processor.create cfg).start.2.timerTicks n = (Processor.create cfg).start.2 :=
    timerTicks_of_empty n _ rfl
  refine ⟨rfl, h1, ?_, ?_, timerTicks_of_empty n _ rfl, ?_⟩
  · rw [h1]; rfl
  · rw [h1]; rfl
  · unfold Processor.timerTick
    cases hs : p.state
    · exact Or.inl rfl
    · rcases formBatch_cases p with h | ⟨s, rest, -, h, -⟩
      · exact Or.inl (by rw [h.2])
      · exact Or.inr ⟨s, rest, h⟩
    · exact Or.inl rfl

end SpanProcessor
